import Mathlib

set_option maxRecDepth 8000

/-
Verification of the Poster-Peta map-poster generator: a shallow embedding of
the data-fetch-and-cache pipeline of src/create_map_poster.py and the job
orchestration layer of src/app.py, together with theorems settling the
specification claims about caching, parallel fetching, progress reporting,
cancellation and error handling.

Modelling conventions:
- Graphs and GeoDataFrames are abstracted to their observable size (node
  count / row count), which is all the code inspects (len(G), gdf.empty).
- The on-disk pickle cache is an association list from the canonical key
  string to the stored value.  The real code stores entries under the file
  name md5(key) + ".pkl"; since md5 is one fixed pure function applied
  uniformly to every key, working at the key-string level is a faithful
  refinement for every claim (the claims themselves treat md5 collisions as
  out of scope).
- Side effects that the claims reason about (callback invocations, provider
  network calls, politeness sleeps, cache writes, progress updates) are
  recorded in an explicit event trace.
- Fallible external calls (the osmnx provider, pickle serialization, disk
  writes, the user callback) are inputs to each function: the outcome the
  external world produces during that call.
-/

namespace PosterPeta

instance {ε α : Type} [DecidableEq ε] [DecidableEq α] :
    DecidableEq (Except ε α) := fun x y =>
  match x, y with
  | .ok a, .ok b =>
    if h : a = b then isTrue (by rw [h]) else isFalse (by simp [h])
  | .ok _, .error _ => isFalse (by simp)
  | .error _, .ok _ => isFalse (by simp)
  | .error a, .error b =>
    if h : a = b then isTrue (by rw [h]) else isFalse (by simp [h])

/-- Geospatial payload stored in the cache and returned by fetchers: a street
graph with its node count, or a feature GeoDataFrame with its row count. -/
inductive GeoVal
  | graph (nodes : Nat)
  | feats (rows : Nat)
deriving DecidableEq

/-- Python observable size: len(G) for a graph, the row count for a
GeoDataFrame (gdf.empty iff size = 0). -/
def GeoVal.size : GeoVal → Nat
  | .graph n => n
  | .feats r => r

/-- The on-disk cache, keyed by the canonical query string (see module
comment for why the md5 filename step is elided). -/
abbrev Cache := List (String × GeoVal)

/-- Read a cache entry (cache_get in create_map_poster.py). -/
def cacheLookup (c : Cache) (key : String) : Option GeoVal :=
  match c.find? (fun e => e.1 == key) with
  | some e => some e.2
  | none => none

/-- Store a cache entry (the successful body of cache_set). -/
def cacheInsert (c : Cache) (key : String) (v : GeoVal) : Cache :=
  (key, v) :: c

/-- Cache file name computation (cache_file in create_map_poster.py):
the hex digest of the key plus the ".pkl" extension.  md5 is one fixed pure
function of the key string, passed here as a parameter. -/
def cache_file (md5hex : String → String) (key : String) : String :=
  md5hex key ++ ".pkl"

/-- Network type global OSM_NETWORK_TYPE (env default "drive"); the claims do
not depend on the override, so the default is used. -/
def OSM_NETWORK_TYPE : String := "drive"

/-- Modelled from Python semantics (not part of src/): CPython salts built-in
str hashing with a per-process random seed (hash randomization /
PYTHONHASHSEED), so hash(s) is a function of the per-process seed and of the
string.  The exact mixing is irrelevant to the claims — only the fact that
the result depends on the seed — so a simple seeded polynomial fold modulo
2^64 stands in for siphash. -/
def pyHash (seed : Nat) (s : String) : Nat :=
  s.data.foldl (fun a ch => (a * 1000003 + ch.toNat) % 18446744073709551616)
    (seed * 2654435761 + 1)

/-- Cache key of fetch_graph: f-string "graph_{lat}_{lon}_{dist}_{net}".
Coordinates are modelled as integers; only their printed form enters the
key. -/
def graphKey (lat lon : Int) (dist : Nat) : String :=
  "graph_" ++ toString lat ++ "_" ++ toString lon ++ "_" ++ toString dist
    ++ "_" ++ OSM_NETWORK_TYPE

/-- Cache key of fetch_features: f-string "{name}_{lat}_{lon}_{dist}_{tag_str}"
where tag_str joins the tag dictionary keys with underscores. -/
def featuresKey (name : String) (lat lon : Int) (dist : Nat)
    (tagKeys : List String) : String :=
  name ++ "_" ++ toString lat ++ "_" ++ toString lon ++ "_" ++ toString dist
    ++ "_" ++ String.intercalate "_" tagKeys

/-- Cache key of fetch_graph_from_polygon:
"graph_polygon_{hash(str(geometry))}_{net}" — note the use of the salted
built-in hash on the geometry string. -/
def graphPolygonKey (seed : Nat) (boundaryStr : String) : String :=
  "graph_polygon_" ++ toString (pyHash seed boundaryStr) ++ "_"
    ++ OSM_NETWORK_TYPE

/-- Cache key of fetch_features_from_polygon:
"{name}_polygon_{hash(str(geometry))}_{tag_str}". -/
def featuresPolygonKey (seed : Nat) (name boundaryStr : String)
    (tagKeys : List String) : String :=
  name ++ "_polygon_" ++ toString (pyHash seed boundaryStr) ++ "_"
    ++ String.intercalate "_" tagKeys

/-- Outcome of one invocation of the user-supplied cache-hit callback:
returns normally or raises. -/
inductive CbRes
  | ok
  | exn
deriving DecidableEq

/-- The cache-hit callback: receives the dataset name and the hit flag and
either returns or raises. -/
abbrev Cb := String → Bool → CbRes

/-- Observable events of one fetch round. -/
inductive Ev
  | cbCall (name : String) (hit : Bool)
  | providerCall (what : String)
  | sleep (ms : Nat)
  | cacheWrite (key : String)
  | progress (status message : String)
deriving DecidableEq

/-- Outcome of a point-based provider call (ox.graph_from_point /
ox.features_from_point): an exception, or a returned value that the code
defensively tests for None. -/
inductive PRes
  | exn
  | ret (v : Option GeoVal)
deriving DecidableEq

/-- Outcome of a polygon-based provider call (ox.graph_from_polygon /
ox.features_from_polygon): an exception or a returned (possibly empty)
value; these code paths have no None test. -/
inductive PResP
  | exn
  | ret (v : GeoVal)
deriving DecidableEq

/-- Outcome of the pickle.dump / file write performed by cache_set. -/
inductive PersistRes
  | ok
  | pickleErr (msg : String)
  | osErr (msg : String)
deriving DecidableEq

/-- CacheError raised by cache_set, with the two causes distinguished exactly
as the two raise sites distinguish them. -/
inductive CacheError
  | serialization (msg : String)
  | file (msg : String)
deriving DecidableEq

/-- The _report_cache helper: invoke the callback when present, swallowing
any exception it raises (try/except pass). -/
def reportCacheEv (cb : Option Cb) (name : String) (hit : Bool) : List Ev :=
  match cb with
  | none => []
  | some f =>
    match f name hit with
    | .ok => [Ev.cbCall name hit]
    | .exn => [Ev.cbCall name hit]

/-- cache_set: pickle the value to the key file; a pickle failure raises
CacheError.serialization, a file failure raises CacheError.file, success
stores the entry.  Its codomain shows it raises nothing but CacheError and
never swallows a failure. -/
def cache_set (c : Cache) (name : String) (v : GeoVal)
    (persist : PersistRes) : Except CacheError Cache :=
  match persist with
  | .ok => Except.ok (cacheInsert c name v)
  | .pickleErr m => Except.error (CacheError.serialization
      ("Serialization error while saving cache for " ++ name ++ ": " ++ m))
  | .osErr m => Except.error (CacheError.file
      ("File error while saving cache for " ++ name ++ ": " ++ m))

/-- Result of one fetcher run: the returned value (None on failure), the
cache after the run, and the emitted event trace. -/
structure FetchOut where
  result : Option GeoVal
  cache : Cache
  trace : List Ev
deriving DecidableEq

/-- fetch_graph (create_map_poster.py): cache lookup, hit report and
immediate return on hit; miss report, provider call, None/empty check,
politeness sleep, cache write (CacheError caught and logged) on miss.
A provider exception yields None. -/
def fetch_graph (c : Cache) (lat lon : Int) (dist : Nat)
    (prov : PRes) (persist : PersistRes) (cb : Option Cb) : FetchOut :=
  let key := graphKey lat lon dist
  match cacheLookup c key with
  | some v => ⟨some v, c, reportCacheEv cb "streets" true⟩
  | none =>
    let miss := reportCacheEv cb "streets" false
    match prov with
    | .exn => ⟨none, c, miss ++ [Ev.providerCall "graph_from_point"]⟩
    | .ret none => ⟨none, c, miss ++ [Ev.providerCall "graph_from_point"]⟩
    | .ret (some v) =>
      if v.size == 0 then
        ⟨none, c, miss ++ [Ev.providerCall "graph_from_point"]⟩
      else
        match cache_set c key v persist with
        | .ok c2 => ⟨some v, c2, miss ++ [Ev.providerCall "graph_from_point",
            Ev.sleep 300, Ev.cacheWrite key]⟩
        | .error _ => ⟨some v, c, miss ++ [Ev.providerCall "graph_from_point",
            Ev.sleep 300]⟩

/-- fetch_features (create_map_poster.py): same protocol as fetch_graph with
the dataset name, tag keys and a 0.2s politeness sleep; an empty
GeoDataFrame is converted to None. -/
def fetch_features (c : Cache) (lat lon : Int) (dist : Nat)
    (tagKeys : List String) (name : String)
    (prov : PRes) (persist : PersistRes) (cb : Option Cb) : FetchOut :=
  let key := featuresKey name lat lon dist tagKeys
  match cacheLookup c key with
  | some v => ⟨some v, c, reportCacheEv cb name true⟩
  | none =>
    let miss := reportCacheEv cb name false
    match prov with
    | .exn => ⟨none, c, miss ++ [Ev.providerCall "features_from_point"]⟩
    | .ret none => ⟨none, c, miss ++ [Ev.providerCall "features_from_point"]⟩
    | .ret (some v) =>
      if v.size == 0 then
        ⟨none, c, miss ++ [Ev.providerCall "features_from_point"]⟩
      else
        match cache_set c key v persist with
        | .ok c2 => ⟨some v, c2, miss ++ [Ev.providerCall "features_from_point",
            Ev.sleep 200, Ev.cacheWrite key]⟩
        | .error _ => ⟨some v, c, miss ++ [Ev.providerCall "features_from_point",
            Ev.sleep 200]⟩

/-- fetch_graph_from_polygon (create_map_poster.py): keys the cache on the
salted built-in hash of the geometry string; on miss calls the provider and
returns whatever graph it produced — unlike fetch_graph there is no
None/empty check, so an empty graph is cached and returned as a value. -/
def fetch_graph_from_polygon (c : Cache) (seed : Nat) (boundaryStr : String)
    (prov : PResP) (persist : PersistRes) (cb : Option Cb) : FetchOut :=
  let key := graphPolygonKey seed boundaryStr
  match cacheLookup c key with
  | some v => ⟨some v, c, reportCacheEv cb "streets" true⟩
  | none =>
    let miss := reportCacheEv cb "streets" false
    match prov with
    | .exn => ⟨none, c, miss ++ [Ev.providerCall "graph_from_polygon"]⟩
    | .ret v =>
      match cache_set c key v persist with
      | .ok c2 => ⟨some v, c2, miss ++ [Ev.providerCall "graph_from_polygon",
          Ev.sleep 200, Ev.cacheWrite key]⟩
      | .error _ => ⟨some v, c, miss ++ [Ev.providerCall "graph_from_polygon",
          Ev.sleep 200]⟩

/-- fetch_features_from_polygon (create_map_poster.py): polygon-mode feature
fetch; like fetch_graph_from_polygon it has no emptiness check. -/
def fetch_features_from_polygon (c : Cache) (seed : Nat)
    (boundaryStr : String) (tagKeys : List String) (name : String)
    (prov : PResP) (persist : PersistRes) (cb : Option Cb) : FetchOut :=
  let key := featuresPolygonKey seed name boundaryStr tagKeys
  match cacheLookup c key with
  | some v => ⟨some v, c, reportCacheEv cb name true⟩
  | none =>
    let miss := reportCacheEv cb name false
    match prov with
    | .exn => ⟨none, c, miss ++ [Ev.providerCall "features_from_polygon"]⟩
    | .ret v =>
      match cache_set c key v persist with
      | .ok c2 => ⟨some v, c2, miss ++ [Ev.providerCall "features_from_polygon",
          Ev.sleep 150, Ev.cacheWrite key]⟩
      | .error _ => ⟨some v, c, miss ++ [Ev.providerCall "features_from_polygon",
          Ev.sleep 150]⟩

/-- The resolved fetch mode of one round: centre point plus radius, or a
boundary polygon (carried as the printed geometry string, together with the
per-process hash seed under which its cache key is computed).  Degenerate
boundaries (empty GeoDataFrames) are excluded: every caller in src/ rejects
an empty boundary before fetching. -/
inductive Mode
  | point (lat lon : Int) (dist : Nat)
  | poly (seed : Nat) (boundaryStr : String)
deriving DecidableEq

/-- Behaviour of the external osmnx provider during one fetch round: the
outcome of each possible network call. -/
structure Provider where
  graphPoint : PRes
  graphPoly : PResP
  waterPoint : PRes
  waterPoly : PResP
  parksPoint : PRes
  parksPoly : PResP
deriving DecidableEq

/-- Tag-dictionary keys of the water query (natural=water,
waterway=riverbank). -/
def waterTags : List String := ["natural", "waterway"]

/-- Tag-dictionary keys of the parks query (leisure=park, landuse=grass). -/
def parksTags : List String := ["leisure", "landuse"]

/-- The cache key the streets fetcher computes in each mode. -/
def streetsCacheKey : Mode → String
  | .point lat lon dist => graphKey lat lon dist
  | .poly seed b => graphPolygonKey seed b

/-- The cache key the water fetcher computes in each mode. -/
def waterCacheKey : Mode → String
  | .point lat lon dist => featuresKey "water" lat lon dist waterTags
  | .poly seed b => featuresPolygonKey seed "water" b waterTags

/-- The cache key the parks fetcher computes in each mode. -/
def parksCacheKey : Mode → String
  | .point lat lon dist => featuresKey "parks" lat lon dist parksTags
  | .poly seed b => featuresPolygonKey seed "parks" b parksTags

/-- fetch_streets (app.py, inside fetch_map_data_parallel): publish the
"now starting" progress update, check the cancellation flag — the flag value
observed at this checkpoint is the input; the body never reads it again —
and on cancellation return None without any network activity; otherwise
delegate to the polygon or point graph fetcher. -/
def fetch_streets (cancelled : Bool) (c : Cache) (m : Mode) (pv : Provider)
    (persist : PersistRes) (cb : Option Cb) : FetchOut :=
  let pre := [Ev.progress "fetching_streets" "Mengunduh jaringan jalan..."]
  if cancelled then ⟨none, c, pre⟩
  else
    match m with
    | .poly seed b =>
      let out := fetch_graph_from_polygon c seed b pv.graphPoly persist cb
      ⟨out.result, out.cache, pre ++ out.trace⟩
    | .point lat lon dist =>
      let out := fetch_graph c lat lon dist pv.graphPoint persist cb
      ⟨out.result, out.cache, pre ++ out.trace⟩

/-- fetch_water (app.py): progress update, cancellation checkpoint, then the
feature fetch; its try/except turns any provider exception into None (the
inner fetcher already does the same). -/
def fetch_water (cancelled : Bool) (c : Cache) (m : Mode) (pv : Provider)
    (persist : PersistRes) (cb : Option Cb) : FetchOut :=
  let pre := [Ev.progress "fetching_water" "Mengunduh fitur air..."]
  if cancelled then ⟨none, c, pre⟩
  else
    match m with
    | .poly seed b =>
      let out := fetch_features_from_polygon c seed b waterTags "water"
        pv.waterPoly persist cb
      ⟨out.result, out.cache, pre ++ out.trace⟩
    | .point lat lon dist =>
      let out := fetch_features c lat lon dist waterTags "water"
        pv.waterPoint persist cb
      ⟨out.result, out.cache, pre ++ out.trace⟩

/-- fetch_parks (app.py): as fetch_water, for the parks layer. -/
def fetch_parks (cancelled : Bool) (c : Cache) (m : Mode) (pv : Provider)
    (persist : PersistRes) (cb : Option Cb) : FetchOut :=
  let pre := [Ev.progress "fetching_parks" "Mengunduh taman dan ruang hijau..."]
  if cancelled then ⟨none, c, pre⟩
  else
    match m with
    | .poly seed b =>
      let out := fetch_features_from_polygon c seed b parksTags "parks"
        pv.parksPoly persist cb
      ⟨out.result, out.cache, pre ++ out.trace⟩
    | .point lat lon dist =>
      let out := fetch_features c lat lon dist parksTags "parks"
        pv.parksPoint persist cb
      ⟨out.result, out.cache, pre ++ out.trace⟩

/-- fetch_map_data_parallel (app.py), result behaviour: run the three
fetchers (each observing the cancellation flag at its own checkpoint, with
its own provider and persistence outcomes, all against the shared cache —
their keys are disjoint, so the shared initial cache is faithful), then
raise ValueError exactly when the streets task returned None.  The cs, cw,
cp arguments are the flag values the three checkpoints observe. -/
def fetch_map_data_parallel (c : Cache) (m : Mode) (pv : Provider)
    (ps pw pp : PersistRes) (cs cw cp : Bool) (cb : Option Cb) :
    Except String (Option GeoVal × Option GeoVal × Option GeoVal) :=
  let rs := (fetch_streets cs c m pv ps cb).result
  let rw := (fetch_water cw c m pv pw cb).result
  let rp := (fetch_parks cp c m pv pp cb).result
  match rs with
  | none => Except.error "Failed to fetch street network data"
  | some g => Except.ok (some g, rw, rp)

/-- The aggregate progress update fetch_map_data_parallel publishes after the
three result() joins. -/
def aggEv : Ev := Ev.progress "fetching_data" "Semua data berhasil diambil"

/-- An interleaving of three event streams: the possible overall orders in
which three concurrent tasks emit their events. -/
inductive Interleave3 : List Ev → List Ev → List Ev → List Ev → Prop
  | nil : Interleave3 [] [] [] []
  | left {t1 t2 t3 r} (e : Ev) :
      Interleave3 t1 t2 t3 r → Interleave3 (e :: t1) t2 t3 (e :: r)
  | mid {t1 t2 t3 r} (e : Ev) :
      Interleave3 t1 t2 t3 r → Interleave3 t1 (e :: t2) t3 (e :: r)
  | right {t1 t2 t3 r} (e : Ev) :
      Interleave3 t1 t2 t3 r → Interleave3 t1 t2 (e :: t3) (e :: r)

/-- Trace semantics of fetch_map_data_parallel: the three submitted fetcher
bodies run concurrently, so their events appear in some interleaving; the
coordinator calls result() on all three futures and only then publishes the
aggregate update, so the aggregate event follows the whole interleaving. -/
def CoordTrace (t1 t2 t3 tr : List Ev) : Prop :=
  ∃ mix, Interleave3 t1 t2 t3 mix ∧ tr = mix ++ [aggEv]

/-- Whether a trace contains a provider network call. -/
def hasNet (tr : List Ev) : Bool :=
  tr.any fun e =>
    match e with
    | .providerCall _ => true
    | _ => false

/-- Number of cache-hit-callback invocations in a trace. -/
def cbCount (tr : List Ev) : Nat :=
  tr.countP fun e =>
    match e with
    | .cbCall _ _ => true
    | _ => false

/-- Raw request parameters of create_poster_async (app.py) that take part in
location resolution.  Optional strings model Python values that may be
absent (None) or empty; floats are modelled as integers since only their
presence matters to resolution. -/
structure RawParams where
  use_coordinates : Bool
  latitude : Option Int
  longitude : Option Int
  kecamatan : Option String
  kota : Option String
  negara : Option String
  use_delineation : Bool
deriving DecidableEq

/-- Python truthiness of an optional string: present and non-empty. -/
def truthy : Option String → Bool
  | none => false
  | some s => !s.isEmpty

/-- The validation step of create_poster_async: with use_coordinates both
coordinates must be present, otherwise a kecamatan or a negara is
required. -/
def validParams (p : RawParams) : Bool :=
  if p.use_coordinates then p.latitude.isSome && p.longitude.isSome
  else truthy p.kecamatan || truthy p.negara

/-- The five location-resolution modes of create_poster_async. -/
inductive Resolution
  | coords
  | subdistrict
  | cityDelineation
  | countryOnly
  | geocodeCityCountry
deriving DecidableEq

/-- The location-resolution branch create_poster_async takes (app.py lines
407-444): the if/elif chain over the raw parameters. -/
def resolve_location (p : RawParams) : Resolution :=
  if p.use_coordinates then .coords
  else if truthy p.kecamatan then .subdistrict
  else if p.use_delineation && truthy p.kota && truthy p.negara then
    .cityDelineation
  else if !truthy p.kota && truthy p.negara then .countryOnly
  else .geocodeCityCountry

/-- Follows the claim text, not the source: the precedence list "explicit
coordinates > subdistrict name > city-boundary delineation (city and country
present) > country-only > city+country geocoding", first satisfied rule
winning, none when no rule is satisfied.  To be compared with
resolve_location. -/
def resolveSpecPrecedence (p : RawParams) : Option Resolution :=
  if p.use_coordinates then some .coords
  else if truthy p.kecamatan then some .subdistrict
  else if p.use_delineation && truthy p.kota && truthy p.negara then
    some .cityDelineation
  else if truthy p.negara && !truthy p.kota then some .countryOnly
  else if truthy p.kota && truthy p.negara then some .geocodeCityCountry
  else none

/-- The fixed phase-to-percent table of api_progress (app.py). -/
def status_percent_map : List (String × Nat) :=
  [("starting", 5), ("validating", 10), ("loading_theme", 15),
   ("fetching_data", 20), ("fetching_boundary", 25), ("geocoding", 25),
   ("fetching_streets", 35), ("fetching_water", 45), ("fetching_parks", 55),
   ("render_setup", 60), ("render_layers_water", 65),
   ("render_layers_parks", 70), ("render_boundary", 75),
   ("render_roads", 85), ("render_gradients", 90), ("render_text", 95),
   ("render_save", 97), ("completed", 100)]

/-- Percent assigned to a phase by the table. -/
def percentOf (s : String) : Nat :=
  match status_percent_map.find? (fun e => e.1 == s) with
  | some e => e.2
  | none => 0

/-- The phase order stated by the claim (spec section 4.4), with the two
alternative fourth phases geocoding and fetching_boundary listed adjacently. -/
def claimedPhaseOrder : List String :=
  ["starting", "validating", "loading_theme", "geocoding",
   "fetching_boundary", "fetching_data", "fetching_streets",
   "fetching_water", "fetching_parks", "render_setup",
   "render_layers_water", "render_layers_parks", "render_boundary",
   "render_roads", "render_gradients", "render_text", "render_save",
   "completed"]

/-- The claimed order with fetching_data moved before geocoding and
fetching_boundary — the only reordering under which the table is
monotone. -/
def amendedPhaseOrder : List String :=
  ["starting", "validating", "loading_theme", "fetching_data", "geocoding",
   "fetching_boundary", "fetching_streets", "fetching_water",
   "fetching_parks", "render_setup", "render_layers_water",
   "render_layers_parks", "render_boundary", "render_roads",
   "render_gradients", "render_text", "render_save", "completed"]

/-- The table is monotonically non-decreasing along a phase order: every
earlier phase is assigned a percent less than or equal to every later
phase. -/
def monotoneAlong (order : List String) : Prop :=
  order.Pairwise fun a b => percentOf a ≤ percentOf b

/-- A Python exception carrying its str(e) rendering. -/
inductive PyExn
  | exn (s : String)
deriving DecidableEq

/-- A progress callback as passed into create_poster: receives status and
message and either publishes events or raises. -/
abbrev ProgressCb := String → String → Except PyExn (List Ev)

/-- The report closure of create_poster_async (app.py lines 454-457): raise
RuntimeError("cancelled") when the job is cancelled, publish the progress
update otherwise. -/
def app_report (cancelled : Bool) (status message : String) :
    Except PyExn (List Ev) :=
  if cancelled then Except.error (PyExn.exn "cancelled")
  else Except.ok [Ev.progress status message]

/-- The report wrapper inside create_poster (create_map_poster.py lines
510-515): invoke progress_cb when present and swallow every exception it
raises (try/except Exception: pass). -/
def cp_report (progress_cb : Option ProgressCb) (status message : String) :
    List Ev :=
  match progress_cb with
  | none => []
  | some f =>
    match f status message with
    | .ok evs => evs
    | .error _ => []

/-- The progress-report and termination skeleton of create_poster
(create_map_poster.py): the sequence of report checkpoints around fetching
and rendering, with the street-graph result deciding between the ValueError
and normal completion.  Fetch internals are modelled separately; here only
the fetched street-graph result g matters. -/
def create_poster_flow (progress_cb : Option ProgressCb) (clean : Bool)
    (g : Option GeoVal) : Except PyExn (List Ev) :=
  let r := cp_report progress_cb
  let fetchEvs := r "fetching_streets" "Mengunduh jaringan jalan..."
    ++ r "fetching_water" "Mengunduh fitur air..."
    ++ r "fetching_parks" "Mengunduh taman dan ruang hijau..."
  match g with
  | none => Except.error (PyExn.exn
      "Gagal mengambil jaringan jalan (hasil kosong). Coba kurangi skala atau lokasi lain.")
  | some _ =>
    let renderEvs := r "render_setup" "Menyiapkan kanvas render..."
      ++ r "render_layers_water" "Menggambar layer air..."
      ++ r "render_layers_parks" "Menggambar layer ruang hijau..."
      ++ r "render_boundary" "Menggambar garis batas wilayah..."
      ++ r "render_roads" "Menggambar jaringan jalan..."
      ++ (if clean then []
          else r "render_gradients" "Menambahkan efek gradient..."
            ++ r "render_text" "Menambahkan tipografi...")
      ++ r "render_save" "Menyimpan hasil poster..."
    Except.ok (fetchEvs ++ renderEvs)

/-- The terminal-status logic of create_poster_async (app.py lines 497-509):
normal return yields the completed status; an exception whose str is
"cancelled" yields the dedicated cancellation message, any other exception a
generic error message. -/
def async_job_terminal (outcome : Except PyExn (List Ev)) : String × String :=
  match outcome with
  | .ok _ => ("completed", "Poster berhasil dibuat!")
  | .error (.exn m) =>
    if m == "cancelled" then ("error", "Dibatalkan oleh pengguna")
    else ("error", "Error saat membuat poster: " ++ m)

/-- The live pipeline of create_poster_async: create_poster runs with the
cancellation-checking report closure as its progress_cb, and the outcome is
converted to the terminal JobStatus fields. -/
def create_poster_async_terminal (cancelled : Bool) (clean : Bool)
    (g : Option GeoVal) : String × String :=
  async_job_terminal (create_poster_flow (some (app_report cancelled)) clean g)

/-- A concrete provider whose polygon street call returns an empty graph and
whose other calls return nothing. -/
def provEmptyPolyGraph : Provider :=
  ⟨PRes.ret none, PResP.ret (GeoVal.graph 0),
   PRes.ret none, PResP.ret (GeoVal.feats 0),
   PRes.ret none, PResP.ret (GeoVal.feats 0)⟩

/-- A concrete provider for witnesses: every call succeeds with a small
non-empty value. -/
def provSmall : Provider :=
  ⟨PRes.ret (some (GeoVal.graph 5)), PResP.ret (GeoVal.graph 5),
   PRes.ret (some (GeoVal.feats 3)), PResP.ret (GeoVal.feats 3),
   PRes.ret (some (GeoVal.feats 2)), PResP.ret (GeoVal.feats 2)⟩

/- Theorems -/

/-- C1. The claim requires every fetcher's cache key to be identical across
process restarts.  This fails for the polygon fetchers: the key embeds the
salted built-in hash of the geometry string, so two processes with different
hash seeds compute different keys for the same query, the first process
caches under a key the second never looks up, and (the filename being the
fixed digest of the key) different on-disk cache filenames.  Evaluated here
at a concrete boundary under seeds 0 and 1. -/
theorem c1_polygon_cache_key_unstable_across_processes :
    graphPolygonKey 0 "POLYGON ((0 0, 1 0, 1 1, 0 0))"
      ≠ graphPolygonKey 1 "POLYGON ((0 0, 1 0, 1 1, 0 0))"
    ∧ cacheLookup
        (fetch_graph_from_polygon [] 0 "POLYGON ((0 0, 1 0, 1 1, 0 0))"
          (PResP.ret (GeoVal.graph 7)) PersistRes.ok none).cache
        (graphPolygonKey 1 "POLYGON ((0 0, 1 0, 1 1, 0 0))") = none := by
  exact ⟨by decide, by decide⟩

/-- C2, counterexample. The claim states the round fails if and only if the
street-network fetch yields null or empty, an empty street graph being an
error.  In polygon mode fetch_graph_from_polygon has no emptiness check: a
provider that returns an empty street graph produces a successful round
carrying that empty graph, so the claimed equivalence is false at this
input. -/
theorem c2_empty_polygon_graph_not_an_error :
    provEmptyPolyGraph.graphPoly = PResP.ret (GeoVal.graph 0)
    ∧ fetch_map_data_parallel [] (Mode.poly 0 "POLYGON ((0 0, 1 0, 1 1, 0 0))")
        provEmptyPolyGraph PersistRes.ok PersistRes.ok PersistRes.ok
        false false false none
      = Except.ok (some (GeoVal.graph 0), some (GeoVal.feats 0),
          some (GeoVal.feats 0)) := by
  exact ⟨rfl, by decide⟩

/-- C2, amended. fetch_map_data_parallel raises its failure exactly when the
streets task returns None — which happens on cancellation, on a provider
exception, on a provider None, and, in point mode only, on an empty graph;
in polygon mode an empty provider graph is returned as a value and does not
raise — and consequently the water and parks outcomes (empty results or
provider exceptions, both absorbed to None) never cause the failure. -/
theorem c2_failure_iff_streets_none (c : Cache) (m : Mode) (pv : Provider)
    (ps pw pp : PersistRes) (cs cw cp : Bool) (cb : Option Cb) :
    (fetch_map_data_parallel c m pv ps pw pp cs cw cp cb
        = Except.error "Failed to fetch street network data")
      ↔ (fetch_streets cs c m pv ps cb).result = none := by
  unfold fetch_map_data_parallel
  cases h : (fetch_streets cs c m pv ps cb).result <;> simp [h]

/-- C8, counterexample. The claim asserts the percent table is monotonically
non-decreasing along the stated phase order; but geocoding and
fetching_boundary (25) precede fetching_data (20) in that order, so the
table decreases there. -/
theorem c8_percent_table_not_monotone_on_claimed_order :
    ¬ monotoneAlong claimedPhaseOrder
    ∧ claimedPhaseOrder.get? 4 = some "fetching_boundary"
    ∧ claimedPhaseOrder.get? 5 = some "fetching_data"
    ∧ percentOf "fetching_boundary" = 25
    ∧ percentOf "fetching_data" = 20 := by
  refine ⟨?_, rfl, rfl, by decide, by decide⟩
  unfold monotoneAlong claimedPhaseOrder
  decide

/-- C8, amended. The percent table is monotonically non-decreasing along the
pipeline order with fetching_data placed before geocoding and
fetching_boundary; along the claimed order the single violation is the
25-to-20 decrease from geocoding and fetching_boundary to fetching_data. -/
theorem c8_percent_table_monotone_on_amended_order :
    monotoneAlong amendedPhaseOrder := by
  unfold monotoneAlong amendedPhaseOrder
  decide

/-- C5. The claim states that whenever a job terminates because of a user
cancellation the terminal status carries the dedicated cancellation message.
In the live pipeline the cancellation is indeed observed — app.py's report
closure raises RuntimeError("cancelled") — but create_poster's report
wrapper swallows every exception its progress_cb raises, so the marker
never propagates: with the flag set for the whole run and a successful
street fetch the job runs to normal completion and the dedicated
"Dibatalkan oleh pengguna" terminal state is never produced. -/
theorem c5_cancellation_marker_swallowed_job_completes :
    app_report true "render_setup" "Menyiapkan kanvas render..."
      = Except.error (PyExn.exn "cancelled")
    ∧ cp_report (some (app_report true)) "render_setup"
        "Menyiapkan kanvas render..." = []
    ∧ create_poster_async_terminal true false (some (GeoVal.graph 5))
      = ("completed", "Poster berhasil dibuat!")
    ∧ create_poster_async_terminal true false (some (GeoVal.graph 5))
      ≠ ("error", "Dibatalkan oleh pengguna") := by
  refine ⟨rfl, rfl, rfl, by decide⟩

/-- A present callback is invoked and its outcome discarded: _report_cache
emits the invocation whether the callback returns or raises. -/
theorem reportCacheEv_some (f : Cb) (n : String) (h : Bool) :
    reportCacheEv (some f) n h = [Ev.cbCall n h] := by
  unfold reportCacheEv
  cases hfe : f n h <;> simp [hfe]

/-- The result of fetch_graph as a function of the cache, the provider
outcome and the emptiness check; in particular it does not depend on the
persistence outcome or the callback. -/
theorem fetch_graph_result_eq (c : Cache) (lat lon : Int) (dist : Nat)
    (pv : PRes) (q : PersistRes) (cb : Option Cb) :
    (fetch_graph c lat lon dist pv q cb).result =
      match cacheLookup c (graphKey lat lon dist), pv with
      | some v, _ => some v
      | none, .exn => none
      | none, .ret none => none
      | none, .ret (some v) => if v.size == 0 then none else some v := by
  simp only [fetch_graph]
  cases h : cacheLookup c (graphKey lat lon dist) with
  | some v => rfl
  | none =>
    cases pv with
    | exn => rfl
    | ret g =>
      cases g with
      | none => rfl
      | some v =>
        cases hz : v.size == 0 with
        | true => simp [hz]
        | false =>
          simp only [hz]
          cases q <;> rfl

/-- The result of fetch_features, analogously to fetch_graph_result_eq. -/
theorem fetch_features_result_eq (c : Cache) (lat lon : Int) (dist : Nat)
    (tagKeys : List String) (name : String)
    (pv : PRes) (q : PersistRes) (cb : Option Cb) :
    (fetch_features c lat lon dist tagKeys name pv q cb).result =
      match cacheLookup c (featuresKey name lat lon dist tagKeys), pv with
      | some v, _ => some v
      | none, .exn => none
      | none, .ret none => none
      | none, .ret (some v) => if v.size == 0 then none else some v := by
  simp only [fetch_features]
  cases h : cacheLookup c (featuresKey name lat lon dist tagKeys) with
  | some v => rfl
  | none =>
    cases pv with
    | exn => rfl
    | ret g =>
      cases g with
      | none => rfl
      | some v =>
        cases hz : v.size == 0 with
        | true => simp [hz]
        | false =>
          simp only [hz]
          cases q <;> rfl

/-- The result of fetch_graph_from_polygon: the cached or provider value,
with no emptiness check and no dependence on persistence or callback. -/
theorem fetch_graph_from_polygon_result_eq (c : Cache) (seed : Nat)
    (b : String) (pv : PResP) (q : PersistRes) (cb : Option Cb) :
    (fetch_graph_from_polygon c seed b pv q cb).result =
      match cacheLookup c (graphPolygonKey seed b), pv with
      | some v, _ => some v
      | none, .exn => none
      | none, .ret v => some v := by
  simp only [fetch_graph_from_polygon]
  cases h : cacheLookup c (graphPolygonKey seed b) with
  | some v => rfl
  | none =>
    cases pv with
    | exn => rfl
    | ret v => cases q <;> rfl

/-- The result of fetch_features_from_polygon, analogously. -/
theorem fetch_features_from_polygon_result_eq (c : Cache) (seed : Nat)
    (b : String) (tagKeys : List String) (name : String)
    (pv : PResP) (q : PersistRes) (cb : Option Cb) :
    (fetch_features_from_polygon c seed b tagKeys name pv q cb).result =
      match cacheLookup c (featuresPolygonKey seed name b tagKeys), pv with
      | some v, _ => some v
      | none, .exn => none
      | none, .ret v => some v := by
  simp only [fetch_features_from_polygon]
  cases h : cacheLookup c (featuresPolygonKey seed name b tagKeys) with
  | some v => rfl
  | none =>
    cases pv with
    | exn => rfl
    | ret v => cases q <;> rfl

/-- C9. cache_set raises CacheError and nothing else (its codomain is
Except CacheError), exactly when serialization or storage fails, with the
two causes distinguished by constructor; and in every fetcher the persist
step's outcome never changes the fetch result — a CacheError during the
cache write is caught and the freshly fetched value is still returned. -/
theorem c9_cache_error_policy (c : Cache) (k : String) (v : GeoVal)
    (m1 m2 : String) (lat lon : Int) (dist : Nat) (tagKeys : List String)
    (name : String) (seed : Nat) (b : String)
    (pv : PRes) (pvp : PResP) (q1 q2 : PersistRes) (cb : Option Cb) :
    cache_set c k v PersistRes.ok = Except.ok (cacheInsert c k v)
    ∧ cache_set c k v (PersistRes.pickleErr m1)
      = Except.error (CacheError.serialization
          ("Serialization error while saving cache for " ++ k ++ ": " ++ m1))
    ∧ cache_set c k v (PersistRes.osErr m2)
      = Except.error (CacheError.file
          ("File error while saving cache for " ++ k ++ ": " ++ m2))
    ∧ (fetch_graph c lat lon dist pv q1 cb).result
      = (fetch_graph c lat lon dist pv q2 cb).result
    ∧ (fetch_features c lat lon dist tagKeys name pv q1 cb).result
      = (fetch_features c lat lon dist tagKeys name pv q2 cb).result
    ∧ (fetch_graph_from_polygon c seed b pvp q1 cb).result
      = (fetch_graph_from_polygon c seed b pvp q2 cb).result
    ∧ (fetch_features_from_polygon c seed b tagKeys name pvp q1 cb).result
      = (fetch_features_from_polygon c seed b tagKeys name pvp q2 cb).result := by
  refine ⟨rfl, rfl, rfl, ?_, ?_, ?_, ?_⟩
  · rw [fetch_graph_result_eq, fetch_graph_result_eq]
  · rw [fetch_features_result_eq, fetch_features_result_eq]
  · rw [fetch_graph_from_polygon_result_eq, fetch_graph_from_polygon_result_eq]
  · rw [fetch_features_from_polygon_result_eq,
      fetch_features_from_polygon_result_eq]

/-- C10. A raising cache-hit callback is indistinguishable from a returning
one: _report_cache swallows the exception, so for every fetcher the whole
outcome — result, cache and trace — is the same function of the other
inputs whatever the callback does when invoked. -/
theorem c10_callback_exceptions_never_affect_fetch (c : Cache)
    (lat lon : Int) (dist : Nat) (tagKeys : List String) (name : String)
    (seed : Nat) (b : String) (pv : PRes) (pvp : PResP) (q : PersistRes)
    (f g : Cb) :
    fetch_graph c lat lon dist pv q (some f)
      = fetch_graph c lat lon dist pv q (some g)
    ∧ fetch_features c lat lon dist tagKeys name pv q (some f)
      = fetch_features c lat lon dist tagKeys name pv q (some g)
    ∧ fetch_graph_from_polygon c seed b pvp q (some f)
      = fetch_graph_from_polygon c seed b pvp q (some g)
    ∧ fetch_features_from_polygon c seed b tagKeys name pvp q (some f)
      = fetch_features_from_polygon c seed b tagKeys name pvp q (some g) := by
  refine ⟨?_, ?_, ?_, ?_⟩
  · simp only [fetch_graph, reportCacheEv_some]
  · simp only [fetch_features, reportCacheEv_some]
  · simp only [fetch_graph_from_polygon, reportCacheEv_some]
  · simp only [fetch_features_from_polygon, reportCacheEv_some]

/-- C7. For every fetcher with a callback supplied: on a cache hit the
fetcher returns the cached value with the cache untouched and its whole
trace is the single callback invocation (dataset name, wasHit true) — so no
provider call, no politeness sleep, and the callback fires exactly once; on
a miss the trace begins with the single callback invocation (dataset name,
wasHit false) followed immediately by the provider call, and no further
callback invocation occurs. -/
theorem c7_cache_hit_callback_protocol
    (cg1 cg2 cf1 cf2 cpg1 cpg2 cpf1 cpf2 : Cache)
    (lat lon : Int) (dist : Nat) (tagKeys : List String) (name : String)
    (seed : Nat) (b : String) (pv : PRes) (pvp : PResP) (q : PersistRes)
    (f : Cb) (v1 v2 v3 v4 : GeoVal) :
    (cacheLookup cg1 (graphKey lat lon dist) = some v1 →
      fetch_graph cg1 lat lon dist pv q (some f)
        = ⟨some v1, cg1, [Ev.cbCall "streets" true]⟩)
    ∧ (cacheLookup cg2 (graphKey lat lon dist) = none →
      ∃ rest, (fetch_graph cg2 lat lon dist pv q (some f)).trace
          = Ev.cbCall "streets" false :: Ev.providerCall "graph_from_point" :: rest
        ∧ cbCount rest = 0)
    ∧ (cacheLookup cf1 (featuresKey name lat lon dist tagKeys) = some v2 →
      fetch_features cf1 lat lon dist tagKeys name pv q (some f)
        = ⟨some v2, cf1, [Ev.cbCall name true]⟩)
    ∧ (cacheLookup cf2 (featuresKey name lat lon dist tagKeys) = none →
      ∃ rest, (fetch_features cf2 lat lon dist tagKeys name pv q (some f)).trace
          = Ev.cbCall name false :: Ev.providerCall "features_from_point" :: rest
        ∧ cbCount rest = 0)
    ∧ (cacheLookup cpg1 (graphPolygonKey seed b) = some v3 →
      fetch_graph_from_polygon cpg1 seed b pvp q (some f)
        = ⟨some v3, cpg1, [Ev.cbCall "streets" true]⟩)
    ∧ (cacheLookup cpg2 (graphPolygonKey seed b) = none →
      ∃ rest, (fetch_graph_from_polygon cpg2 seed b pvp q (some f)).trace
          = Ev.cbCall "streets" false :: Ev.providerCall "graph_from_polygon" :: rest
        ∧ cbCount rest = 0)
    ∧ (cacheLookup cpf1 (featuresPolygonKey seed name b tagKeys) = some v4 →
      fetch_features_from_polygon cpf1 seed b tagKeys name pvp q (some f)
        = ⟨some v4, cpf1, [Ev.cbCall name true]⟩)
    ∧ (cacheLookup cpf2 (featuresPolygonKey seed name b tagKeys) = none →
      ∃ rest, (fetch_features_from_polygon cpf2 seed b tagKeys name pvp q
            (some f)).trace
          = Ev.cbCall name false :: Ev.providerCall "features_from_polygon" :: rest
        ∧ cbCount rest = 0) := by
  refine ⟨?_, ?_, ?_, ?_, ?_, ?_, ?_, ?_⟩
  · intro h
    simp [fetch_graph, h, reportCacheEv_some]
  · intro h
    simp only [fetch_graph, h, reportCacheEv_some]
    cases pv with
    | exn => exact ⟨[], rfl, rfl⟩
    | ret g =>
      cases g with
      | none => exact ⟨[], rfl, rfl⟩
      | some v =>
        cases hz : v.size == 0 with
        | true =>
          simp only [hz]
          exact ⟨[], rfl, rfl⟩
        | false =>
          simp only [hz]
          cases q <;> exact ⟨_, rfl, rfl⟩
  · intro h
    simp [fetch_features, h, reportCacheEv_some]
  · intro h
    simp only [fetch_features, h, reportCacheEv_some]
    cases pv with
    | exn => exact ⟨[], rfl, rfl⟩
    | ret g =>
      cases g with
      | none => exact ⟨[], rfl, rfl⟩
      | some v =>
        cases hz : v.size == 0 with
        | true =>
          simp only [hz]
          exact ⟨[], rfl, rfl⟩
        | false =>
          simp only [hz]
          cases q <;> exact ⟨_, rfl, rfl⟩
  · intro h
    simp [fetch_graph_from_polygon, h, reportCacheEv_some]
  · intro h
    simp only [fetch_graph_from_polygon, h, reportCacheEv_some]
    cases pvp with
    | exn => exact ⟨[], rfl, rfl⟩
    | ret v => cases q <;> exact ⟨_, rfl, rfl⟩
  · intro h
    simp [fetch_features_from_polygon, h, reportCacheEv_some]
  · intro h
    simp only [fetch_features_from_polygon, h, reportCacheEv_some]
    cases pvp with
    | exn => exact ⟨[], rfl, rfl⟩
    | ret v => cases q <;> exact ⟨_, rfl, rfl⟩

/-- Witness for C7: concrete caches that hit for each fetcher's key and
empty caches that miss, with a returning callback, evaluated through the
theorem. -/
theorem c7_cache_hit_callback_protocol_witness :
    fetch_graph [(graphKey 1 2 500, GeoVal.graph 9)] 1 2 500
        (PRes.ret (some (GeoVal.graph 5))) PersistRes.ok
        (some fun _ _ => CbRes.ok)
      = ⟨some (GeoVal.graph 9), [(graphKey 1 2 500, GeoVal.graph 9)],
          [Ev.cbCall "streets" true]⟩
    ∧ (∃ rest, (fetch_graph [] 1 2 500 (PRes.ret (some (GeoVal.graph 5)))
          PersistRes.ok (some fun _ _ => CbRes.ok)).trace
        = Ev.cbCall "streets" false :: Ev.providerCall "graph_from_point" :: rest
        ∧ cbCount rest = 0)
    ∧ fetch_features [(featuresKey "water" 1 2 500 waterTags, GeoVal.feats 4)]
        1 2 500 waterTags "water" (PRes.ret (some (GeoVal.graph 5)))
        PersistRes.ok (some fun _ _ => CbRes.ok)
      = ⟨some (GeoVal.feats 4),
          [(featuresKey "water" 1 2 500 waterTags, GeoVal.feats 4)],
          [Ev.cbCall "water" true]⟩
    ∧ (∃ rest, (fetch_features [] 1 2 500 waterTags "water"
          (PRes.ret (some (GeoVal.graph 5))) PersistRes.ok
          (some fun _ _ => CbRes.ok)).trace
        = Ev.cbCall "water" false :: Ev.providerCall "features_from_point" :: rest
        ∧ cbCount rest = 0)
    ∧ fetch_graph_from_polygon [(graphPolygonKey 0 "B", GeoVal.graph 3)] 0 "B"
        (PResP.ret (GeoVal.graph 5)) PersistRes.ok (some fun _ _ => CbRes.ok)
      = ⟨some (GeoVal.graph 3), [(graphPolygonKey 0 "B", GeoVal.graph 3)],
          [Ev.cbCall "streets" true]⟩
    ∧ (∃ rest, (fetch_graph_from_polygon [] 0 "B" (PResP.ret (GeoVal.graph 5))
          PersistRes.ok (some fun _ _ => CbRes.ok)).trace
        = Ev.cbCall "streets" false :: Ev.providerCall "graph_from_polygon" :: rest
        ∧ cbCount rest = 0)
    ∧ fetch_features_from_polygon
        [(featuresPolygonKey 0 "water" "B" waterTags, GeoVal.feats 2)] 0 "B"
        waterTags "water" (PResP.ret (GeoVal.graph 5)) PersistRes.ok
        (some fun _ _ => CbRes.ok)
      = ⟨some (GeoVal.feats 2),
          [(featuresPolygonKey 0 "water" "B" waterTags, GeoVal.feats 2)],
          [Ev.cbCall "water" true]⟩
    ∧ (∃ rest, (fetch_features_from_polygon [] 0 "B" waterTags "water"
          (PResP.ret (GeoVal.graph 5)) PersistRes.ok
          (some fun _ _ => CbRes.ok)).trace
        = Ev.cbCall "water" false :: Ev.providerCall "features_from_polygon" :: rest
        ∧ cbCount rest = 0) := by
  have H := c7_cache_hit_callback_protocol
    [(graphKey 1 2 500, GeoVal.graph 9)] []
    [(featuresKey "water" 1 2 500 waterTags, GeoVal.feats 4)] []
    [(graphPolygonKey 0 "B", GeoVal.graph 3)] []
    [(featuresPolygonKey 0 "water" "B" waterTags, GeoVal.feats 2)] []
    1 2 500 waterTags "water" 0 "B"
    (PRes.ret (some (GeoVal.graph 5))) (PResP.ret (GeoVal.graph 5))
    PersistRes.ok (fun _ _ => CbRes.ok)
    (GeoVal.graph 9) (GeoVal.feats 4) (GeoVal.graph 3) (GeoVal.feats 2)
  exact ⟨H.1 (by decide), H.2.1 (by decide), H.2.2.1 (by decide),
    H.2.2.2.1 (by decide), H.2.2.2.2.1 (by decide), H.2.2.2.2.2.1 (by decide),
    H.2.2.2.2.2.2.1 (by decide), H.2.2.2.2.2.2.2 (by decide)⟩

/-- hasNet distributes over trace concatenation. -/
theorem hasNet_append (a b : List Ev) :
    hasNet (a ++ b) = (hasNet a || hasNet b) := by
  simp [hasNet, List.any_append]

/-- A callback report contributes no network call to the trace. -/
theorem hasNet_reportCacheEv (cb : Option Cb) (n : String) (h : Bool) :
    hasNet (reportCacheEv cb n h) = false := by
  unfold reportCacheEv
  cases cb with
  | none => rfl
  | some f => cases hfe : f n h <;> simp [hfe, hasNet]

/-- On a cache miss fetch_graph always issues its provider call, whatever
the provider and persistence outcomes. -/
theorem hasNet_fetch_graph_of_miss (c : Cache) (lat lon : Int) (dist : Nat)
    (pv : PRes) (q : PersistRes) (cb : Option Cb)
    (h : cacheLookup c (graphKey lat lon dist) = none) :
    hasNet (fetch_graph c lat lon dist pv q cb).trace = true := by
  simp only [fetch_graph, h]
  cases pv with
  | exn => simp [hasNet_append, hasNet_reportCacheEv, hasNet]
  | ret g =>
    cases g with
    | none => simp [hasNet_append, hasNet_reportCacheEv, hasNet]
    | some v =>
      cases hz : v.size == 0 with
      | true => simp [hz, hasNet_append, hasNet_reportCacheEv, hasNet]
      | false =>
        cases q <;>
          simp [hz, hasNet_append, hasNet_reportCacheEv, hasNet, cache_set]

/-- On a cache miss fetch_features always issues its provider call. -/
theorem hasNet_fetch_features_of_miss (c : Cache) (lat lon : Int)
    (dist : Nat) (tagKeys : List String) (name : String)
    (pv : PRes) (q : PersistRes) (cb : Option Cb)
    (h : cacheLookup c (featuresKey name lat lon dist tagKeys) = none) :
    hasNet (fetch_features c lat lon dist tagKeys name pv q cb).trace
      = true := by
  simp only [fetch_features, h]
  cases pv with
  | exn => simp [hasNet_append, hasNet_reportCacheEv, hasNet]
  | ret g =>
    cases g with
    | none => simp [hasNet_append, hasNet_reportCacheEv, hasNet]
    | some v =>
      cases hz : v.size == 0 with
      | true => simp [hz, hasNet_append, hasNet_reportCacheEv, hasNet]
      | false =>
        cases q <;>
          simp [hz, hasNet_append, hasNet_reportCacheEv, hasNet, cache_set]

/-- On a cache miss fetch_graph_from_polygon always issues its provider
call. -/
theorem hasNet_fetch_graph_from_polygon_of_miss (c : Cache) (seed : Nat)
    (b : String) (pv : PResP) (q : PersistRes) (cb : Option Cb)
    (h : cacheLookup c (graphPolygonKey seed b) = none) :
    hasNet (fetch_graph_from_polygon c seed b pv q cb).trace = true := by
  simp only [fetch_graph_from_polygon, h]
  cases pv with
  | exn => simp [hasNet_append, hasNet_reportCacheEv, hasNet]
  | ret v =>
    cases q <;> simp [hasNet_append, hasNet_reportCacheEv, hasNet, cache_set]

/-- On a cache miss fetch_features_from_polygon always issues its provider
call. -/
theorem hasNet_fetch_features_from_polygon_of_miss (c : Cache) (seed : Nat)
    (b : String) (tagKeys : List String) (name : String)
    (pv : PResP) (q : PersistRes) (cb : Option Cb)
    (h : cacheLookup c (featuresPolygonKey seed name b tagKeys) = none) :
    hasNet (fetch_features_from_polygon c seed b tagKeys name pv q cb).trace
      = true := by
  simp only [fetch_features_from_polygon, h]
  cases pv with
  | exn => simp [hasNet_append, hasNet_reportCacheEv, hasNet]
  | ret v =>
    cases q <;> simp [hasNet_append, hasNet_reportCacheEv, hasNet, cache_set]

/-- C4. Each of the three fetcher bodies reads the cancellation flag once,
at its checkpoint right after its "now starting" progress update: when the
flag observed there is true the fetcher returns None with no provider call
in its trace; when it is false and the cache misses, the provider call is
issued — the flag is not consulted again, so a cancellation arriving after
the checkpoint cannot stop that fetcher (the model takes the observed flag
value as the input, which is exactly the once-only read of the source). -/
theorem c4_cancellation_checkpoint (c : Cache) (m : Mode) (pv : Provider)
    (ps pw pp : PersistRes) (cb : Option Cb) :
    ((fetch_streets true c m pv ps cb).result = none
      ∧ hasNet (fetch_streets true c m pv ps cb).trace = false)
    ∧ ((fetch_water true c m pv pw cb).result = none
      ∧ hasNet (fetch_water true c m pv pw cb).trace = false)
    ∧ ((fetch_parks true c m pv pp cb).result = none
      ∧ hasNet (fetch_parks true c m pv pp cb).trace = false)
    ∧ (cacheLookup c (streetsCacheKey m) = none →
      hasNet (fetch_streets false c m pv ps cb).trace = true)
    ∧ (cacheLookup c (waterCacheKey m) = none →
      hasNet (fetch_water false c m pv pw cb).trace = true)
    ∧ (cacheLookup c (parksCacheKey m) = none →
      hasNet (fetch_parks false c m pv pp cb).trace = true) := by
  refine ⟨⟨rfl, rfl⟩, ⟨rfl, rfl⟩, ⟨rfl, rfl⟩, ?_, ?_, ?_⟩
  · intro h
    cases m with
    | point lat lon dist =>
      simp only [streetsCacheKey] at h
      show hasNet ([Ev.progress "fetching_streets"
        "Mengunduh jaringan jalan..."]
        ++ (fetch_graph c lat lon dist pv.graphPoint ps cb).trace) = true
      rw [hasNet_append, hasNet_fetch_graph_of_miss c lat lon dist
        pv.graphPoint ps cb h]
      rfl
    | poly seed b =>
      simp only [streetsCacheKey] at h
      show hasNet ([Ev.progress "fetching_streets"
        "Mengunduh jaringan jalan..."]
        ++ (fetch_graph_from_polygon c seed b pv.graphPoly ps cb).trace) = true
      rw [hasNet_append, hasNet_fetch_graph_from_polygon_of_miss c seed b
        pv.graphPoly ps cb h]
      rfl
  · intro h
    cases m with
    | point lat lon dist =>
      simp only [waterCacheKey] at h
      show hasNet ([Ev.progress "fetching_water" "Mengunduh fitur air..."]
        ++ (fetch_features c lat lon dist waterTags "water"
            pv.waterPoint pw cb).trace) = true
      rw [hasNet_append, hasNet_fetch_features_of_miss c lat lon dist
        waterTags "water" pv.waterPoint pw cb h]
      rfl
    | poly seed b =>
      simp only [waterCacheKey] at h
      show hasNet ([Ev.progress "fetching_water" "Mengunduh fitur air..."]
        ++ (fetch_features_from_polygon c seed b waterTags "water"
            pv.waterPoly pw cb).trace) = true
      rw [hasNet_append, hasNet_fetch_features_from_polygon_of_miss c seed b
        waterTags "water" pv.waterPoly pw cb h]
      rfl
  · intro h
    cases m with
    | point lat lon dist =>
      simp only [parksCacheKey] at h
      show hasNet ([Ev.progress "fetching_parks"
        "Mengunduh taman dan ruang hijau..."]
        ++ (fetch_features c lat lon dist parksTags "parks"
            pv.parksPoint pp cb).trace) = true
      rw [hasNet_append, hasNet_fetch_features_of_miss c lat lon dist
        parksTags "parks" pv.parksPoint pp cb h]
      rfl
    | poly seed b =>
      simp only [parksCacheKey] at h
      show hasNet ([Ev.progress "fetching_parks"
        "Mengunduh taman dan ruang hijau..."]
        ++ (fetch_features_from_polygon c seed b parksTags "parks"
            pv.parksPoly pp cb).trace) = true
      rw [hasNet_append, hasNet_fetch_features_from_polygon_of_miss c seed b
        parksTags "parks" pv.parksPoly pp cb h]
      rfl

/-- Witness for C4: the empty cache misses every key, so with the flag
observed true each fetcher returns None without a network call, and with
the flag observed false each issues its provider call. -/
theorem c4_cancellation_checkpoint_witness :
    ((fetch_streets true [] (Mode.point 1 2 500) provSmall PersistRes.ok
        none).result = none
      ∧ hasNet (fetch_streets true [] (Mode.point 1 2 500) provSmall
          PersistRes.ok none).trace = false)
    ∧ ((fetch_water true [] (Mode.point 1 2 500) provSmall PersistRes.ok
        none).result = none
      ∧ hasNet (fetch_water true [] (Mode.point 1 2 500) provSmall
          PersistRes.ok none).trace = false)
    ∧ ((fetch_parks true [] (Mode.point 1 2 500) provSmall PersistRes.ok
        none).result = none
      ∧ hasNet (fetch_parks true [] (Mode.point 1 2 500) provSmall
          PersistRes.ok none).trace = false)
    ∧ hasNet (fetch_streets false [] (Mode.point 1 2 500) provSmall
        PersistRes.ok none).trace = true
    ∧ hasNet (fetch_water false [] (Mode.point 1 2 500) provSmall
        PersistRes.ok none).trace = true
    ∧ hasNet (fetch_parks false [] (Mode.point 1 2 500) provSmall
        PersistRes.ok none).trace = true := by
  have H := c4_cancellation_checkpoint [] (Mode.point 1 2 500) provSmall
    PersistRes.ok PersistRes.ok PersistRes.ok none
  exact ⟨H.1, H.2.1, H.2.2.1, H.2.2.2.1 (by decide), H.2.2.2.2.1 (by decide),
    H.2.2.2.2.2 (by decide)⟩

/-- C3. Under the validation that create_poster_async performs first (with
use_coordinates both coordinates present, otherwise a kecamatan or a negara
required), the if/elif resolution chain implements exactly the claimed
precedence list — explicit coordinates, then subdistrict name, then
city-boundary delineation with city and country present, then country-only,
then city+country geocoding — first satisfied rule winning. -/
theorem c3_location_resolution_precedence (p : RawParams)
    (h : validParams p = true) :
    some (resolve_location p) = resolveSpecPrecedence p := by
  unfold validParams at h
  unfold resolve_location resolveSpecPrecedence
  cases hA : p.use_coordinates <;>
    cases hB : truthy p.kecamatan <;>
      cases hD : p.use_delineation <;>
        cases hK : truthy p.kota <;>
          cases hN : truthy p.negara <;>
            simp_all

/-- Witness for C3: a request satisfying all five modes at once (explicit
coordinates, a kecamatan, delineation with city and country) resolves to
explicit coordinates under both the code and the claimed precedence. -/
theorem c3_location_resolution_precedence_witness :
    validParams ⟨true, some 10, some 20,
      some "Menteng, Jakarta Pusat, Indonesia", some "Jakarta",
      some "Indonesia", true⟩ = true
    ∧ resolve_location ⟨true, some 10, some 20,
      some "Menteng, Jakarta Pusat, Indonesia", some "Jakarta",
      some "Indonesia", true⟩ = Resolution.coords
    ∧ some (resolve_location ⟨true, some 10, some 20,
      some "Menteng, Jakarta Pusat, Indonesia", some "Jakarta",
      some "Indonesia", true⟩)
      = resolveSpecPrecedence ⟨true, some 10, some 20,
        some "Menteng, Jakarta Pusat, Indonesia", some "Jakarta",
        some "Indonesia", true⟩ :=
  ⟨by decide, by decide,
    c3_location_resolution_precedence ⟨true, some 10, some 20,
      some "Menteng, Jakarta Pusat, Indonesia", some "Jakarta",
      some "Indonesia", true⟩ (by decide)⟩

/-- An interleaving is exactly as long as its three sources together. -/
theorem interleave3_length {t1 t2 t3 r : List Ev}
    (h : Interleave3 t1 t2 t3 r) :
    r.length = t1.length + t2.length + t3.length := by
  induction h with
  | nil => rfl
  | left e h ih => simp [ih]; omega
  | mid e h ih => simp [ih]; omega
  | right e h ih => simp [ih]; omega

/-- Every event of any of the three sources occurs in the interleaving. -/
theorem interleave3_mem {t1 t2 t3 r : List Ev} (h : Interleave3 t1 t2 t3 r)
    (e : Ev) (he : e ∈ t1 ∨ e ∈ t2 ∨ e ∈ t3) : e ∈ r := by
  induction h with
  | nil => simp at he
  | left e2 h ih =>
    rcases he with he | he | he
    · rcases List.mem_cons.mp he with rfl | he
      · exact List.mem_cons_self _ _
      · exact List.mem_cons_of_mem _ (ih (Or.inl he))
    · exact List.mem_cons_of_mem _ (ih (Or.inr (Or.inl he)))
    · exact List.mem_cons_of_mem _ (ih (Or.inr (Or.inr he)))
  | mid e2 h ih =>
    rcases he with he | he | he
    · exact List.mem_cons_of_mem _ (ih (Or.inl he))
    · rcases List.mem_cons.mp he with rfl | he
      · exact List.mem_cons_self _ _
      · exact List.mem_cons_of_mem _ (ih (Or.inr (Or.inl he)))
    · exact List.mem_cons_of_mem _ (ih (Or.inr (Or.inr he)))
  | right e2 h ih =>
    rcases he with he | he | he
    · exact List.mem_cons_of_mem _ (ih (Or.inl he))
    · exact List.mem_cons_of_mem _ (ih (Or.inr (Or.inl he)))
    · rcases List.mem_cons.mp he with rfl | he
      · exact List.mem_cons_self _ _
      · exact List.mem_cons_of_mem _ (ih (Or.inr (Or.inr he)))

/-- C6. In every trace of fetch_map_data_parallel — whatever order the three
concurrently running fetchers emit their events in — the aggregate
"Semua data berhasil diambil" update is the event following the whole
interleaving: it sits at the index equal to the total number of events of
all three fetchers, and every event of every fetcher (in particular each
task's final event) lies in the strict prefix before it.  Join semantics,
not first-completion semantics. -/
theorem c6_join_semantics (cs cw cp : Bool) (c : Cache) (m : Mode)
    (pv : Provider) (ps pw pp : PersistRes) (cb : Option Cb) (tr : List Ev)
    (h : CoordTrace (fetch_streets cs c m pv ps cb).trace
      (fetch_water cw c m pv pw cb).trace
      (fetch_parks cp c m pv pp cb).trace tr) :
    ∃ mix, tr = mix ++ [aggEv]
      ∧ mix.length = (fetch_streets cs c m pv ps cb).trace.length
          + (fetch_water cw c m pv pw cb).trace.length
          + (fetch_parks cp c m pv pp cb).trace.length
      ∧ ∀ e, (e ∈ (fetch_streets cs c m pv ps cb).trace
          ∨ e ∈ (fetch_water cw c m pv pw cb).trace
          ∨ e ∈ (fetch_parks cp c m pv pp cb).trace)
        → e ∈ mix := by
  obtain ⟨mix, hi, htr⟩ := h
  exact ⟨mix, htr, interleave3_length hi, fun e he => interleave3_mem hi e he⟩

/-- Witness for C6: with all three fetchers cancelled at their checkpoints
each trace is its single starting update; the coordinator trace lists those
three events and then the aggregate update, which indeed sits after all of
them. -/
theorem c6_join_semantics_witness :
    ∃ mix,
      ([Ev.progress "fetching_streets" "Mengunduh jaringan jalan...",
        Ev.progress "fetching_water" "Mengunduh fitur air...",
        Ev.progress "fetching_parks" "Mengunduh taman dan ruang hijau...",
        aggEv] : List Ev) = mix ++ [aggEv]
      ∧ mix.length = (fetch_streets true [] (Mode.point 1 2 500) provSmall
            PersistRes.ok none).trace.length
          + (fetch_water true [] (Mode.point 1 2 500) provSmall
            PersistRes.ok none).trace.length
          + (fetch_parks true [] (Mode.point 1 2 500) provSmall
            PersistRes.ok none).trace.length
      ∧ ∀ e, (e ∈ (fetch_streets true [] (Mode.point 1 2 500) provSmall
            PersistRes.ok none).trace
          ∨ e ∈ (fetch_water true [] (Mode.point 1 2 500) provSmall
            PersistRes.ok none).trace
          ∨ e ∈ (fetch_parks true [] (Mode.point 1 2 500) provSmall
            PersistRes.ok none).trace)
        → e ∈ mix := by
  apply c6_join_semantics true true true [] (Mode.point 1 2 500) provSmall
    PersistRes.ok PersistRes.ok PersistRes.ok none
  refine ⟨[Ev.progress "fetching_streets" "Mengunduh jaringan jalan...",
    Ev.progress "fetching_water" "Mengunduh fitur air...",
    Ev.progress "fetching_parks" "Mengunduh taman dan ruang hijau..."],
    ?_, rfl⟩
  show Interleave3
    [Ev.progress "fetching_streets" "Mengunduh jaringan jalan..."]
    [Ev.progress "fetching_water" "Mengunduh fitur air..."]
    [Ev.progress "fetching_parks" "Mengunduh taman dan ruang hijau..."]
    [Ev.progress "fetching_streets" "Mengunduh jaringan jalan...",
     Ev.progress "fetching_water" "Mengunduh fitur air...",
     Ev.progress "fetching_parks" "Mengunduh taman dan ruang hijau..."]
  exact Interleave3.left _ (Interleave3.mid _ (Interleave3.right _
    Interleave3.nil))

end PosterPeta
